import Mathlib

/-!
Verification of the conversation-state lifecycle with bounded-history
summarization, shallowly embedded from `microservices/backend/graph.py`
and `microservices/backend/server.py`.

The graph state carries a message list and an optional summary.  Nodes
return channel updates: message updates are merged by the runtime's
`add_messages` reducer (append a new message, replace an existing one by
id, or remove one by id via `RemoveMessage`), while a returned summary
replaces the stored one.  The oracle (the external chat model) is a
parameter everywhere.
-/

/-- Message roles, mirroring the LangChain message classes used by the
code (`HumanMessage`, `AIMessage`, `SystemMessage`). -/
inductive Role : Type
  | human
  | ai
  | system
deriving DecidableEq, Repr

/-- A message as held in graph state: a role, a text content, and an id
that is unique within a thread (ids drive `RemoveMessage` pruning). -/
structure Message : Type where
  role : Role
  content : String
  id : Nat
deriving DecidableEq, Repr

/-- One element of a node's `messages` channel update: either a message
to merge (append, or replace an existing message with the same id) or a
`RemoveMessage(id=...)` deletion marker. -/
inductive MsgUpdate : Type
  | add (m : Message)
  | remove (id : Nat)
deriving DecidableEq, Repr

/-- Apply one update the way the `add_messages` reducer of
`MessagesState` does: an added message replaces an existing message with
the same id, otherwise it is appended; a removal drops every message
with that id. -/
def applyUpdate (msgs : List Message) : MsgUpdate → List Message
  | .add m =>
      if msgs.any (fun x => x.id == m.id) then
        msgs.map (fun x => if x.id == m.id then m else x)
      else
        msgs ++ [m]
  | .remove i => msgs.filter (fun x => x.id != i)

/-- Fold a node's list of message updates into the stored list, as the
`add_messages` reducer does. -/
def addMessages (msgs : List Message) (updates : List MsgUpdate) : List Message :=
  updates.foldl applyUpdate msgs

/-- The graph state of `graph.py`: `class State(MessagesState)` with an
optional `summary` field (absent until first compaction). -/
structure State : Type where
  messages : List Message
  summary : Option String
deriving DecidableEq, Repr

/-- What a node returns: a list of message updates for the `messages`
channel and, when `some`, a replacement value for the `summary`
channel. -/
structure NodeOutput : Type where
  messages : List MsgUpdate
  summary : Option String
deriving DecidableEq, Repr

/-- Merge a node's output into the state: message updates go through the
`add_messages` reducer; a returned summary overwrites the stored one,
and an absent one leaves it untouched. -/
def applyOutput (s : State) (o : NodeOutput) : State :=
  { messages := addMessages s.messages o.messages,
    summary := match o.summary with
      | some t => some t
      | none => s.summary }

/-- The text the code reads with `state.get("summary", "")`: the stored
summary, or the empty string when absent. -/
def summaryText (s : State) : String :=
  s.summary.getD ""

/-- Id used for the transient `SystemMessage` synthesized in
`call_model`; it is built fresh per call and never persisted. -/
def sysMsgId : Nat := 1000000

/-- Id used for the transient `HumanMessage` carrying the compaction
prompt in `summarize_conversation`; never persisted. -/
def promptMsgId : Nat := 1000001

/-- The synthesized system message `call_model` prefixes when a summary
is present: content `Summary of conversation earlier: ` followed by the
summary. -/
def synthSystemMessage (summary : String) : Message :=
  { role := .system,
    content := "Summary of conversation earlier: " ++ summary,
    id := sysMsgId }

/-- The input `call_model` sends to the model (`graph.py` lines 38-46):
if the summary is truthy (present and non-empty) the synthesized system
message followed by all of `messages`, else `messages` unmodified. -/
def oracleInput (s : State) : List Message :=
  if summaryText s ≠ "" then
    synthSystemMessage (summaryText s) :: s.messages
  else
    s.messages

/-- The `call_model` node (`graph.py` lines 38-48): invoke the model on
`oracleInput` and return the single response as a message update; the
summary channel is not written. -/
def call_model (oracle : List Message → Message) (s : State) : NodeOutput :=
  { messages := [.add (oracle (oracleInput s))], summary := none }

/-- The two targets of the conditional edge out of the `conversation`
node, mirroring `Literal["summarize_conversation", "__end__"]`. -/
inductive ContinueTarget : Type
  | summarize_conversation
  | endTarget
deriving DecidableEq, Repr

/-- The `should_continue` router (`graph.py` lines 51-55): go to
`summarize_conversation` when `len(messages) > 6`, else to `END`. -/
def should_continue (s : State) : ContinueTarget :=
  if s.messages.length > 6 then .summarize_conversation else .endTarget

/-- The compaction prompt built by `summarize_conversation` (`graph.py`
lines 58-65): an extension prompt mentioning the existing summary when
one is present, else the initial summarization prompt. -/
def summaryPrompt (s : State) : String :=
  if summaryText s ≠ "" then
    "This is summary of the conversation to date: " ++ summaryText s ++
      "\n\nExtend the summary by taking into account the new messages above:"
  else
    "Create a summary of the conversation above:"

/-- The `summarize_conversation` node (`graph.py` lines 57-71): invoke
the model on `messages` plus a synthesized human message holding the
compaction prompt, set `summary` to the response content, and emit a
`RemoveMessage` for every message except the last two
(`state["messages"][:-2]`). -/
def summarize_conversation (oracle : List Message → Message) (s : State) : NodeOutput :=
  { messages :=
      (s.messages.take (s.messages.length - 2)).map (fun m => MsgUpdate.remove m.id),
    summary :=
      some (oracle (s.messages ++
        [{ role := .human, content := summaryPrompt s, id := promptMsgId }])).content }

/-- One compaction: run `summarize_conversation` and merge its output
into the state. -/
def compactionStep (oracle : List Message → Message) (s : State) : State :=
  applyOutput s (summarize_conversation oracle s)

/-- Merge the turn's input messages (the request's human messages) into
the loaded state, as the runtime does with the `messages` key of the
invoke input. -/
def applyInput (s : State) (input : List Message) : State :=
  { s with messages := addMessages s.messages (input.map MsgUpdate.add) }

/-- Events observable while one turn runs: a node executing, or the
conditional edge evaluating `should_continue` (with its outcome). -/
inductive TurnEvent : Type
  | node (name : String)
  | predicateEval (toSummarize : Bool)
deriving DecidableEq, Repr

/-- True exactly on the event of the `summarize_conversation` node
executing. -/
def isSummarizeEvent : TurnEvent → Bool
  | .node n => n == "summarize_conversation"
  | _ => false

/-- True exactly on an evaluation of the `should_continue` predicate. -/
def isPredicateEvent : TurnEvent → Bool
  | .predicateEval _ => true
  | .node _ => false

/-- One turn of the compiled graph of `get_graph` (`graph.py` lines
77-87), together with its event trace: merge the input, run
`conversation`, evaluate `should_continue` once, and either run
`summarize_conversation` and end, or end directly. -/
def runTurnTrace (oracle : List Message → Message) (s : State) (input : List Message) :
    State × List TurnEvent :=
  let s1 := applyInput s input
  let s2 := applyOutput s1 (call_model oracle s1)
  match should_continue s2 with
  | .summarize_conversation =>
      (compactionStep oracle s2,
        [.node "conversation", .predicateEval true, .node "summarize_conversation"])
  | .endTarget =>
      (s2, [.node "conversation", .predicateEval false])

/-- Concrete oracle used by witnesses: always replies with a fixed ai
message carrying a fresh id. -/
def wOracle : List Message → Message :=
  fun _ => { role := .ai, content := "ok", id := 100 }

/-- Concrete empty pre-turn state used by witnesses. -/
def wState : State := { messages := [], summary := none }

/-- Concrete one-human-message turn input used by witnesses. -/
def wInput : List Message := [{ role := .human, content := "hi", id := 1 }]

/-- Failure of the external completion oracle (auth, rate limit,
network), surfaced as an exception by `model.invoke`. -/
inductive OracleError : Type
  | oracleError
deriving DecidableEq, Repr

/-- Oracle that always fails, used to exercise the failure path. -/
def failingOracle : List Message → Except OracleError Message :=
  fun _ => .error .oracleError

/-- Modelled from the spec: the checkpointing behaviour of the external
graph runtime and its in-memory checkpointer is not part of this
repository's sources. Per the spec (section 4.1 failure note and the
section 9 two-phase commit risk), the reference persists a turn's
mutations incrementally: the appended input is checkpointed before the
first node runs, and each node's result is checkpointed after the node
completes. This runs one turn of the graph of `get_graph` with a
fallible oracle and returns the turn outcome together with the state
last persisted by the checkpointer. -/
def runTurnCheckpointed (oracle : List Message → Except OracleError Message)
    (s : State) (input : List Message) : Except OracleError State × State :=
  let s1 := applyInput s input
  match oracle (oracleInput s1) with
  | .error e => (.error e, s1)
  | .ok resp =>
      let s2 := applyOutput s1 { messages := [.add resp], summary := none }
      match should_continue s2 with
      | .endTarget => (.ok s2, s2)
      | .summarize_conversation =>
          match oracle (s2.messages ++
              [{ role := .human, content := summaryPrompt s2, id := promptMsgId }]) with
          | .error e => (.error e, s2)
          | .ok sresp =>
              let s3 := applyOutput s2
                { messages := (s2.messages.take (s2.messages.length - 2)).map
                    (fun m => MsgUpdate.remove m.id),
                  summary := some sresp.content }
              (.ok s3, s3)

/-- A message on the service wire: a type tag and a text content, the
shape produced by `_serialize_message` in `server.py`. -/
structure SerMsg : Type where
  type : String
  content : String
deriving DecidableEq, Repr

/-- The three dynamic shapes `_serialize_message` distinguishes: an
object with a `content` attribute (tagged with its Python class name), a
mapping with optional `type` and `content` entries (entries modelled by
their text representation), or any other value (modelled by its text
representation). -/
inductive PyMsg : Type
  | obj (typeName : String) (content : String)
  | dict (typeTag : Option String) (contentText : Option String)
  | other (text : String)
deriving DecidableEq, Repr

/-- The `_serialize_message` helper (`server.py` lines 74-96): objects
with a `content` attribute map to type `ai` when the class is
`AIMessage`, else to `human`; mappings keep their own `type` entry
defaulting to `human` and coerce `content` to text defaulting to the
empty string; anything else becomes a `human` message holding its text
representation. -/
def _serialize_message : PyMsg → SerMsg
  | .obj tn c =>
      if tn = "AIMessage" then { type := "ai", content := c }
      else if tn = "HumanMessage" then { type := "human", content := c }
      else { type := "human", content := c }
  | .dict t c => { type := t.getD "human", content := c.getD "" }
  | .other s => { type := "human", content := s }

/-- Python class name of the LangChain message object holding a graph
message of the given role. -/
def roleTypeName : Role → String
  | .human => "HumanMessage"
  | .ai => "AIMessage"
  | .system => "SystemMessage"

/-- Serialization of a graph-state message at the service boundary: the
message object (which has a `content` attribute) goes through
`_serialize_message`. -/
def serializeStateMessage (m : Message) : SerMsg :=
  _serialize_message (.obj (roleTypeName m.role) m.content)

/-- The body of a `GET /threads/.../state` response: serialized messages
and the summary text. -/
structure ThreadStateResp : Type where
  messages : List SerMsg
  summary : String
deriving DecidableEq, Repr

/-- The keyed per-thread persistence of the checkpointer: thread id to
stored conversation state, absent for never-seen threads. -/
def Store : Type := String → Option State

/-- The store holding no thread at all. -/
def emptyStore : Store := fun _ => none

/-- Erase one thread id from a store, the effect of the checkpointer's
thread deletion. -/
def deleteKey (st : Store) (t : String) : Store :=
  fun k => if k = t then none else st k

/-- The `compiled_graph.get_state` call of `get_thread_state`: the
stored values for a known thread, and a failure for an unknown one
(the route's `except` branch handles either an exception or empty
values identically, as an empty result). -/
def get_state_snapshot (store : Store) (t : String) : Except String State :=
  match store t with
  | some v => .ok v
  | none => .error "no checkpoint for thread"

/-- The `GET /threads/.../state` route (`server.py` lines 168-177):
serialize the stored messages and return the stored summary defaulting
to the empty string; any failure is caught and answered with the empty
state. -/
def get_thread_state (store : Store) (t : String) : ThreadStateResp :=
  match get_state_snapshot store t with
  | .ok v =>
      { messages := v.messages.map serializeStateMessage,
        summary := v.summary.getD "" }
  | .error _ => { messages := [], summary := "" }

/-- Failures of the delete route: the 500 raised when the graph module
exposes no memory saver (`StoreUnavailable`), or a store-level
failure. -/
inductive StoreError : Type
  | storeUnavailable
  | storeFailure (msg : String)
deriving DecidableEq, Repr

/-- The `DELETE /threads/...` route (`server.py` lines 179-187): fail
with `StoreUnavailable` when the memory saver is not wired up, else
erase the thread's persisted state and acknowledge. The store's delete
itself is modelled from the spec's ConversationStore contract
(`delete(thread_id) -> ack`), the saver being an external
collaborator. -/
def delete_thread (memory : Option Store) (t : String) :
    Except StoreError (Store × String) :=
  match memory with
  | none => .error .storeUnavailable
  | some st => .ok (deleteKey st t, "deleted")

/-- The body of a `POST /invoke` response: serialized post-turn messages
and the state snapshot field (`resp.get("state", {})`). -/
structure InvokeResp : Type where
  messages : List SerMsg
  stateObj : List (String × String)
deriving DecidableEq, Repr

/-- The `state` field both routes attach: the graph's output dict has no
`state` key, so `resp.get("state", {})` is always the empty object. -/
def graph_state_field : List (String × String) := []

/-- One server-sent event of the `POST /stream` route: a terminal
message event carrying the node tag, the serialized messages and the
state field, or an error event carrying the failure text. -/
inductive ServerEvent : Type
  | message (node : String) (messages : List SerMsg)
      (stateObj : List (String × String))
  | error (err : String)
deriving DecidableEq, Repr

/-- The `POST /invoke` route (`server.py` lines 114-124), parameterized
by the outcome of `compiled_graph.invoke` on the thread and input:
serialize the resulting messages on success, surface the failure as an
HTTP error otherwise. -/
def invoke (g : String → List SerMsg → Except String State)
    (t : String) (inp : List SerMsg) : Except String InvokeResp :=
  match g t inp with
  | .ok resp =>
      .ok { messages := resp.messages.map serializeStateMessage,
            stateObj := graph_state_field }
  | .error e => .error e

/-- The `POST /stream` route (`server.py` lines 126-166): run the same
graph call to completion, then emit a single terminal message event
with the serialized payload, or a single error event when the call
fails. -/
def stream (g : String → List SerMsg → Except String State)
    (t : String) (inp : List SerMsg) : List ServerEvent :=
  match g t inp with
  | .ok resp =>
      [.message "conversation" (resp.messages.map serializeStateMessage)
        graph_state_field]
  | .error e => [.error e]

/-- Concrete seven-message thread history (distinct ids) used by
witnesses exercising compaction. -/
def wMsgs7 : List Message :=
  [ { role := .human, content := "m1", id := 1 },
    { role := .ai, content := "m2", id := 2 },
    { role := .human, content := "m3", id := 3 },
    { role := .ai, content := "m4", id := 4 },
    { role := .human, content := "m5", id := 5 },
    { role := .ai, content := "m6", id := 6 },
    { role := .human, content := "m7", id := 7 } ]

/-- Concrete state with an existing summary used by the C5 witness. -/
def wStateSum : State :=
  { messages := [{ role := .human, content := "a", id := 1 }],
    summary := some "prior" }

/-- C1: compaction is triggered by a turn exactly when the message count
after the ai reply exceeds 6; a turn ending with at most 6 messages
leaves the summary unchanged. -/
theorem compaction_trigger_iff_gt_six (oracle : List Message → Message)
    (s : State) (input : List Message) :
    (TurnEvent.node "summarize_conversation" ∈ (runTurnTrace oracle s input).2 ↔
      6 < (applyOutput (applyInput s input)
            (call_model oracle (applyInput s input))).messages.length) ∧
    ((applyOutput (applyInput s input)
        (call_model oracle (applyInput s input))).messages.length ≤ 6 →
      (runTurnTrace oracle s input).1.summary = s.summary) := by
  simp only [runTurnTrace, should_continue]
  split_ifs with h
  · refine ⟨by simp [h], fun hle => absurd h (by omega)⟩
  · refine ⟨by simp [h], fun _ => ?_⟩
    simp [applyOutput, applyInput, call_model]

/-- Witness for C1 at a concrete turn: one human message into an empty
thread yields 2 messages, so the summary stays absent. -/
theorem compaction_trigger_iff_gt_six_witness :
    (runTurnTrace wOracle wState wInput).1.summary = wState.summary :=
  (compaction_trigger_iff_gt_six wOracle wState wInput).2 (by decide)

/-- Folding a list of `RemoveMessage` updates through the reducer
filters out every message whose id is among the removed ids. -/
theorem addMessages_remove_eq_filter (ids : List Nat) (msgs : List Message) :
    addMessages msgs (ids.map MsgUpdate.remove)
      = msgs.filter (fun m => decide (m.id ∉ ids)) := by
  induction ids generalizing msgs with
  | nil => simp [addMessages]
  | cons i is ih =>
      have h1 : addMessages msgs ((i :: is).map MsgUpdate.remove)
          = addMessages (applyUpdate msgs (MsgUpdate.remove i))
              (is.map MsgUpdate.remove) := rfl
      rw [h1, ih]
      simp only [applyUpdate]
      rw [List.filter_filter]
      apply List.filter_congr
      intro a _
      by_cases h : a.id = i <;> by_cases h2 : a.id ∈ is <;> simp [h, h2]

/-- Keeping only the messages whose id does not occur among the first
`k` ids leaves exactly the suffix after position `k`, provided ids are
unique within the thread. -/
theorem filter_id_not_mem_take (msgs : List Message) (k : Nat)
    (h : (msgs.map Message.id).Nodup) :
    msgs.filter (fun m => decide (m.id ∉ (msgs.take k).map Message.id))
      = msgs.drop k := by
  have hsplit : (msgs.map Message.id)
      = (msgs.take k).map Message.id ++ (msgs.drop k).map Message.id := by
    rw [← List.map_append, List.take_append_drop]
  rw [hsplit] at h
  have hdisj := (List.nodup_append.mp h).2.2
  have htake : (msgs.take k).filter
      (fun m => decide (m.id ∉ (msgs.take k).map Message.id)) = [] := by
    rw [List.filter_eq_nil_iff]
    intro a ha
    simp only [decide_eq_true_eq, Decidable.not_not]
    exact List.mem_map_of_mem Message.id ha
  have hdrop : (msgs.drop k).filter
      (fun m => decide (m.id ∉ (msgs.take k).map Message.id)) = msgs.drop k := by
    rw [List.filter_eq_self]
    intro a ha
    simp only [decide_eq_true_eq]
    exact fun hmem => hdisj hmem (List.mem_map_of_mem Message.id ha)
  have hstep : ((msgs.take k) ++ (msgs.drop k)).filter
        (fun m => decide (m.id ∉ (msgs.take k).map Message.id))
      = msgs.filter (fun m => decide (m.id ∉ (msgs.take k).map Message.id)) := by
    rw [List.take_append_drop]
  rw [← hstep, List.filter_append, htake, hdrop, List.nil_append]

/-- C2: compaction keeps exactly the two most recent messages: right
after `summarize_conversation`, `messages` is the last-two suffix of the
pre-compaction list (message ids being unique within the thread). -/
theorem compaction_keeps_last_two (oracle : List Message → Message) (s : State)
    (h : (s.messages.map Message.id).Nodup) :
    (compactionStep oracle s).messages
      = s.messages.drop (s.messages.length - 2) := by
  show (applyOutput s (summarize_conversation oracle s)).messages = _
  simp only [applyOutput, summarize_conversation]
  have hmap : (s.messages.take (s.messages.length - 2)).map
        (fun m => MsgUpdate.remove m.id)
      = ((s.messages.take (s.messages.length - 2)).map Message.id).map
          MsgUpdate.remove := by
    rw [List.map_map]; rfl
  rw [hmap, addMessages_remove_eq_filter, filter_id_not_mem_take s.messages _ h]

/-- Witness for C2: compacting a seven-message history with distinct ids
leaves exactly its last two messages. -/
theorem compaction_keeps_last_two_witness :
    (compactionStep wOracle { messages := wMsgs7, summary := none }).messages
      = wMsgs7.drop (wMsgs7.length - 2) :=
  compaction_keeps_last_two wOracle { messages := wMsgs7, summary := none }
    (by decide)

/-- C3: compaction sets `summary` to exactly the content the oracle
returned for that compaction, replacing any previous value; hence after
two successive compactions only the second oracle output remains. -/
theorem compaction_replaces_summary (oracle : List Message → Message) (s : State) :
    ((compactionStep oracle s).summary
      = some (oracle (s.messages ++
          [{ role := .human, content := summaryPrompt s,
             id := promptMsgId }])).content) ∧
    ∀ (o1 o2 : List Message → Message) (s0 : State),
      (compactionStep o2 (compactionStep o1 s0)).summary
        = some (o2 ((compactionStep o1 s0).messages ++
            [{ role := .human, content := summaryPrompt (compactionStep o1 s0),
               id := promptMsgId }])).content :=
  ⟨rfl, fun _ _ _ => rfl⟩

/-- C5: the oracle input is the synthesized summary system message (when
a summary is present) followed by all stored messages, else the stored
messages unmodified; and the `conversation` node persists only the ai
reply — the post-node message list is the old list plus the reply, with
no system message added. -/
theorem oracle_input_shape (oracle : List Message → Message) (s : State)
    (hfresh : ∀ m ∈ s.messages, m.id ≠ (oracle (oracleInput s)).id) :
    (oracleInput s =
      if summaryText s ≠ "" then synthSystemMessage (summaryText s) :: s.messages
      else s.messages) ∧
    (applyOutput s (call_model oracle s)).messages
      = s.messages ++ [oracle (oracleInput s)] := by
  refine ⟨rfl, ?_⟩
  have hany : s.messages.any
      (fun x => x.id == (oracle (oracleInput s)).id) = false := by
    rw [List.any_eq_false]
    intro a ha
    simpa using hfresh a ha
  show applyUpdate s.messages (MsgUpdate.add (oracle (oracleInput s))) = _
  simp [applyUpdate, hany]

/-- Witness for C5: with a stored summary "prior" and a fresh reply id,
the oracle input is the synthesized system message followed by the
stored message, and the reply is appended. -/
theorem oracle_input_shape_witness :
    (oracleInput wStateSum =
      if summaryText wStateSum ≠ "" then
        synthSystemMessage (summaryText wStateSum) :: wStateSum.messages
      else wStateSum.messages) ∧
    (applyOutput wStateSum (call_model wOracle wStateSum)).messages
      = wStateSum.messages ++ [wOracle (oracleInput wStateSum)] :=
  oracle_input_shape wOracle wStateSum (by decide)

/-- C6: in every turn the `should_continue` predicate is evaluated
exactly once, the `summarize_conversation` node runs at most once, and
no predicate evaluation happens after the summarize node has run. -/
theorem single_compaction_per_turn (oracle : List Message → Message)
    (s : State) (input : List Message) :
    ((runTurnTrace oracle s input).2.countP isSummarizeEvent ≤ 1) ∧
    ((runTurnTrace oracle s input).2.countP isPredicateEvent = 1) ∧
    (((runTurnTrace oracle s input).2.dropWhile
        (fun e => !isSummarizeEvent e)).countP isPredicateEvent = 0) := by
  rcases hsc : should_continue (applyOutput (applyInput s input)
      (call_model oracle (applyInput s input))) with _ | _ <;>
    simp only [runTurnTrace, hsc] <;> decide

/-- C4: at a concrete failing turn (empty thread, one human message,
oracle raising), the turn errors but the checkpointer has already
persisted the appended human message, so the persisted state differs
from the pre-turn state — the uncommitted human message is stored
without an ai reply. -/
theorem failed_turn_commits_partial_state :
    (runTurnCheckpointed failingOracle wState wInput
      = (.error .oracleError, { messages := wInput, summary := none })) ∧
    ({ messages := wInput, summary := none } : State) ≠ wState :=
  ⟨rfl, by decide⟩

/-- C7: reading the state of a thread the store has never seen answers
the empty message list and the empty summary (the route catches any
lookup failure and returns the empty state). -/
theorem get_state_unknown_thread_empty (store : Store) (t : String)
    (h : store t = none) :
    get_thread_state store t = { messages := [], summary := "" } := by
  simp [get_thread_state, get_state_snapshot, h]

/-- Witness for C7: the empty store answers the empty state for thread
"t1". -/
theorem get_state_unknown_thread_empty_witness :
    get_thread_state emptyStore "t1" = { messages := [], summary := "" } :=
  get_state_unknown_thread_empty emptyStore "t1" rfl

/-- C8: the delete route fails with `StoreUnavailable` exactly when the
memory saver is not wired up; when it is, it erases the thread's state
and a subsequent state read on the same thread answers the empty
state. -/
theorem delete_then_get_empty (memory : Option Store) (t : String) :
    (delete_thread memory t = .error .storeUnavailable ↔ memory = none) ∧
    (∀ st, memory = some st →
      delete_thread memory t = .ok (deleteKey st t, "deleted") ∧
      get_thread_state (deleteKey st t) t
        = { messages := [], summary := "" }) := by
  constructor
  · cases memory <;> simp [delete_thread]
  · intro st hst
    subst hst
    refine ⟨rfl, ?_⟩
    simp [get_thread_state, get_state_snapshot, deleteKey]

/-- Witness for C8: deleting thread "t1" on a wired-up store succeeds
and the follow-up read answers the empty state. -/
theorem delete_then_get_empty_witness :
    delete_thread (some emptyStore) "t1"
      = .ok (deleteKey emptyStore "t1", "deleted") ∧
    get_thread_state (deleteKey emptyStore "t1") "t1"
      = { messages := [], summary := "" } :=
  (delete_then_get_empty (some emptyStore) "t1").2 emptyStore rfl

/-- C9: the stream route emits exactly one terminal event; on success it
is a message event whose messages and state fields equal the invoke
route's payload for the same thread and input, and on failure it is a
single error event carrying the failure the invoke route would raise. -/
theorem stream_single_event_matches_invoke
    (g : String → List SerMsg → Except String State)
    (t : String) (inp : List SerMsg) :
    (stream g t inp).length = 1 ∧
    ((∃ ms, stream g t inp
          = [ServerEvent.message "conversation" ms graph_state_field] ∧
        invoke g t inp = .ok { messages := ms, stateObj := graph_state_field }) ∨
     (∃ e, stream g t inp = [ServerEvent.error e] ∧
        invoke g t inp = .error e)) := by
  cases hg : g t inp with
  | ok resp =>
      exact ⟨by simp [stream, hg],
        Or.inl ⟨resp.messages.map serializeStateMessage,
          by simp [stream, hg], by simp [invoke, hg]⟩⟩
  | error e =>
      exact ⟨by simp [stream, hg],
        Or.inr ⟨e, by simp [stream, hg], by simp [invoke, hg]⟩⟩

/-- C10 counterexample: a mapping whose own `type` entry is "system"
serializes to type "system", so serialization does output the type
"system" on some inputs. -/
theorem serialize_system_mapping_counterexample :
    (_serialize_message (PyMsg.dict (some "system") (some "hi"))).type
      = "system" := rfl

/-- C10 amended: serialization is total; an object with a content
attribute maps to "ai" exactly when its class is `AIMessage` and to
"human" otherwise (never "system"); a mapping keeps its own type entry
(defaulting to "human", and possibly "system") with content coerced to
text; any other value maps to "human" with its text representation. -/
theorem serialize_total_shape (tn c s : String) (tTag cTxt : Option String) :
    (_serialize_message (PyMsg.obj tn c)
        = { type := if tn = "AIMessage" then "ai" else "human", content := c }) ∧
    (_serialize_message (PyMsg.obj tn c)).type ≠ "system" ∧
    (_serialize_message (PyMsg.dict tTag cTxt)
        = { type := tTag.getD "human", content := cTxt.getD "" }) ∧
    (_serialize_message (PyMsg.other s)
        = { type := "human", content := s }) := by
  refine ⟨?_, ?_, rfl, rfl⟩ <;>
    · simp only [_serialize_message]
      split_ifs <;> simp
